import Mathlib

/-!
Shallow embedding of the cart-pole swing-up plant simulator
(`myCartpoleF_SwingUp.py`, class `CartPoleSwingUp`) over exact real
arithmetic, together with theorems settling the specification claims.

Floating-point values of the source are modelled as real numbers; the
`numpy` uniform sampler used by `reset` is abstracted as explicit draw
parameters; the `assert self.state is not None` guard is modelled by a
checked wrapper returning `Except`.
-/

namespace CartPoleSwingUp

/-- Hardware constant `gravity` (line 75). -/
noncomputable def gravity : ℝ := 9.81

/-- Hardware constant `masscart = 0.57 + 0.37` (line 76). -/
noncomputable def masscart : ℝ := 0.57 + 0.37

/-- Hardware constant `masspole` (line 77). -/
noncomputable def masspole : ℝ := 0.230

/-- Half pole length `length` (line 79). -/
noncomputable def length : ℝ := 0.3302

/-- Motor pinion radius `r_mp` (line 81). -/
noncomputable def r_mp : ℝ := 0.00635

/-- Rotor moment of inertia `Jm` (line 82). -/
noncomputable def Jm : ℝ := 0.00000039

/-- Gearbox ratio `Kg` (line 83). -/
noncomputable def Kg : ℝ := 3.71

/-- Motor armature resistance `Rm` (line 84). -/
noncomputable def Rm : ℝ := 2.6

/-- Motor torque constant `Kt` (line 85). -/
noncomputable def Kt : ℝ := 0.00767

/-- Back-EMF constant `Km` (line 86). -/
noncomputable def Km : ℝ := 0.00767

/-- Equivalent viscous damping at the motor pinion `Beq` (line 88). -/
noncomputable def Beq : ℝ := 5.4

/-- Viscous damping at the pendulum axis `Bp` (line 89). -/
noncomputable def Bp : ℝ := 0.0024

/-- Force scale `force_mag` (line 91). -/
noncomputable def force_mag : ℝ := 10.0

/-- Frames per second `fps = 100` (line 73). -/
noncomputable def fps : ℝ := 100

/-- Control period `tau = 1/fps` (line 92). -/
noncomputable def tau : ℝ := 1 / fps

/-- Upright-angle threshold `theta_threshold_radians` (line 119). -/
noncomputable def theta_threshold_radians : ℝ := 0.2

/-- Rail bound `x_threshold` (line 121). -/
noncomputable def x_threshold : ℝ := 0.25

/-- Maximum normalized action magnitude `max_action` (line 136). -/
noncomputable def max_action : ℝ := 1.0

/-- The 4-component simulation state `(x, x_dot, theta, theta_dot)`;
also reused as the carrier of 4-component derivative vectors
`(x_dot, xacc, theta_dot, thetaacc)` as produced by `RHS`. -/
@[ext] structure State where
  x : ℝ
  x_dot : ℝ
  theta : ℝ
  theta_dot : ℝ

/-- Componentwise vector addition used by the numpy array arithmetic of
the RK4 branch. -/
def vadd (a b : State) : State :=
  ⟨a.x + b.x, a.x_dot + b.x_dot, a.theta + b.theta, a.theta_dot + b.theta_dot⟩

/-- Componentwise scalar multiplication used by the numpy array
arithmetic of the RK4 branch. -/
def vsmul (c : ℝ) (a : State) : State :=
  ⟨c * a.x, c * a.x_dot, c * a.theta, c * a.theta_dot⟩

/-- Constant denominator term `d` (lines 187, 211, 258). -/
noncomputable def dconst : ℝ :=
  4 * masscart * r_mp ^ 2 + masspole * r_mp ^ 2 + 4 * Jm * Kg ^ 2

/-- Cart acceleration `xacc` exactly as written on lines 190 / 214 / 261,
as a function of the unpacked state components and the force. -/
noncomputable def xaccOf (x_dot theta theta_dot force : ℝ) : ℝ :=
  let costheta := Real.cos theta
  let sintheta := Real.sin theta
  ((-4 * (Rm * r_mp ^ 2 * Beq + Kg ^ 2 * Kt * Km)) /
      (Rm * (dconst + 3 * r_mp ^ 2 * masspole * sintheta ^ 2))) * x_dot +
    ((-3 * Bp * r_mp ^ 2 * costheta) /
      (length * (dconst + 3 * r_mp ^ 2 * masspole * sintheta ^ 2))) * theta_dot +
    ((-4 * masspole * length * r_mp ^ 2 * sintheta) /
      (dconst + 3 * r_mp ^ 2 * masspole * sintheta ^ 2)) * theta_dot ^ 2 +
    ((3 * masspole * gravity * r_mp ^ 2 * costheta * sintheta) /
      (dconst + 3 * r_mp ^ 2 * masspole * sintheta ^ 2)) +
    (4 * r_mp * Kg * Kt) /
      (Rm * (dconst + 3 * r_mp ^ 2 * masspole * sintheta ^ 2)) * force

/-- Pole acceleration `thetaacc` exactly as written on lines 192 / 216 / 263,
as a function of the unpacked state components and the force. -/
noncomputable def thetaaccOf (x_dot theta theta_dot force : ℝ) : ℝ :=
  let costheta := Real.cos theta
  let sintheta := Real.sin theta
  ((-3 * (Rm * r_mp ^ 2 * Beq + Kg ^ 2 * Kt * Km) * costheta) /
      (length * Rm * (dconst + 3 * r_mp ^ 2 * masspole * sintheta ^ 2))) * x_dot +
    ((-3 * (masscart * r_mp ^ 2 + masspole * r_mp ^ 2 + Jm * Kg ^ 2) * Bp) /
      (masspole * length ^ 2 * (dconst + 3 * r_mp ^ 2 * masspole * sintheta ^ 2))) * theta_dot +
    ((-3 * masspole * r_mp ^ 2 * sintheta * costheta) /
      (dconst + 3 * r_mp ^ 2 * masspole * sintheta ^ 2)) * theta_dot ^ 2 +
    ((3 * (masscart * r_mp ^ 2 + masspole * r_mp ^ 2 + Jm * Kg ^ 2) * gravity * sintheta) /
      (length * (dconst + 3 * r_mp ^ 2 * masspole * sintheta ^ 2))) +
    (3 * r_mp * Kg * Kt * costheta) /
      (length * Rm * (dconst + 3 * r_mp ^ 2 * masspole * sintheta ^ 2)) * force

/-- The time-derivative `(x_dot, xacc, theta_dot, thetaacc)` of the
dynamics evaluated at the state `s` under force `force`. -/
noncomputable def deriv_at (s : State) (force : ℝ) : State :=
  ⟨s.x_dot, xaccOf s.x_dot s.theta s.theta_dot force,
    s.theta_dot, thetaaccOf s.x_dot s.theta s.theta_dot force⟩

/-- Method `RHS` (lines 176-194).  The method takes an argument `y`, but its body
unpacks `self.state` (line 181), even reassigns `y = self.state`
(line 188), and computes the derivative from the stored state's
components: the returned derivative is evaluated at the stored `state`,
and the argument `y` is ignored. -/
noncomputable def RHS (state : State) (y : State) (force : ℝ) : State :=
  deriv_at state force

/-- Selectable kinematics integrator strings (lines 218, 223, 229);
`"RK4"` is the constructor default (line 99). -/
inductive Integrator where
  | euler
  | semiEuler
  | rk4

/-- The swing-up angle re-wrap `theta = math.atan(sintheta/costheta)`
(line 256): one-argument arctangent of the quotient, NOT the
two-argument `atan2`. -/
noncomputable def swingUpRewrap (theta : ℝ) : ℝ :=
  Real.arctan (Real.sin theta / Real.cos theta)

/-- Method `stepPhysics` (lines 197-240): computes `xacc`/`thetaacc` from the
stored state, then advances it according to the selected integrator.  In
the `"RK4"` branch the four stages call `RHS` on perturbed states
(lines 231-236). -/
noncomputable def stepPhysics (mode : Integrator) (s : State) (force : ℝ) : State :=
  let xacc := xaccOf s.x_dot s.theta s.theta_dot force
  let thetaacc := thetaaccOf s.x_dot s.theta s.theta_dot force
  match mode with
  | .euler =>
      ⟨s.x + tau * s.x_dot, s.x_dot + tau * xacc,
        s.theta + tau * s.theta_dot, s.theta_dot + tau * thetaacc⟩
  | .semiEuler =>
      let x_dot' := s.x_dot + tau * xacc
      let theta_dot' := s.theta_dot + tau * thetaacc
      ⟨s.x + tau * x_dot', x_dot', s.theta + tau * theta_dot', theta_dot'⟩
  | .rk4 =>
      let y := s
      let k1 := RHS s y force
      let k2 := RHS s (vadd y (vsmul (tau / 2) k1)) force
      let k3 := RHS s (vadd y (vsmul (tau / 2) k2)) force
      let k4 := RHS s (vadd y (vsmul tau k3)) force
      vadd y (vsmul (tau / 6) (vadd (vadd (vadd k1 (vsmul 2 k2)) (vsmul 2 k3)) k4))

/-- Method `stepSwingUp` (lines 242-288): same as `stepPhysics` except that the
local `theta` is reassigned to `atan(sintheta/costheta)` (line 256)
after `costheta`/`sintheta` were computed from the original angle, so
the re-wrapped angle feeds only the Euler-family position updates; the
`"RK4"` branch reads `y = self.state` and overwrites all four unpacked
components, discarding the re-wrap. -/
noncomputable def stepSwingUp (mode : Integrator) (s : State) (force : ℝ) : State :=
  let theta := swingUpRewrap s.theta
  let xacc := xaccOf s.x_dot s.theta s.theta_dot force
  let thetaacc := thetaaccOf s.x_dot s.theta s.theta_dot force
  match mode with
  | .euler =>
      ⟨s.x + tau * s.x_dot, s.x_dot + tau * xacc,
        theta + tau * s.theta_dot, s.theta_dot + tau * thetaacc⟩
  | .semiEuler =>
      let x_dot' := s.x_dot + tau * xacc
      let theta_dot' := s.theta_dot + tau * thetaacc
      ⟨s.x + tau * x_dot', x_dot', theta + tau * theta_dot', theta_dot'⟩
  | .rk4 =>
      let y := s
      let k1 := RHS s y force
      let k2 := RHS s (vadd y (vsmul (tau / 2) k1)) force
      let k3 := RHS s (vadd y (vsmul (tau / 2) k2)) force
      let k4 := RHS s (vadd y (vsmul tau k3)) force
      vadd y (vsmul (tau / 6) (vadd (vadd (vadd k1 (vsmul 2 k2)) (vsmul 2 k3)) k4))

/-- The 5-component observation vector. -/
structure Obs where
  o1 : ℝ
  o2 : ℝ
  o3 : ℝ
  o4 : ℝ
  o5 : ℝ

/-- Everything a `step` call produces or mutates: the returned
observation, reward, `terminated` and `off_track` flags, the new stored
state, the new `steps_beyond_terminated` counter, and whether the
one-time post-terminal diagnostic warning was emitted by this call. -/
structure StepResult where
  obs : Obs
  reward : ℝ
  terminated : Prop
  off_track : Prop
  state : State
  steps_beyond_terminated : Option ℕ
  warned : Prop

/-- Numpy `np.clip(v, lo, hi)`. -/
noncomputable def clip (v lo hi : ℝ) : ℝ := min (max v lo) hi

/-- Action-to-force conversion of `step` (lines 302-303):
`force = force_mag * clip(max_action * action, -max_action, max_action)`. -/
noncomputable def forceOf (action : ℝ) : ℝ :=
  force_mag * clip (max_action * action) (-max_action) max_action

open Classical in
/-- Method `step` (lines 299-370) on an initialized simulator: clamp and scale
the action, advance the stored state with `stepSwingUp` in the default
`"RK4"` mode, classify `terminated = |theta| < theta_threshold_radians/4`
and `off_track = |x| > x_threshold` from the post-integration state,
assign the reward and update `steps_beyond_terminated` per the branch
structure of lines 329-349 (the `logger.warn` call fires exactly when
the counter is already set and equal to 0), and build the observation
`(x, x_dot, cos theta, sin theta, theta_dot)` (line 360). -/
noncomputable def step (s : State) (sb : Option ℕ) (action : ℝ) : StepResult :=
  let force := forceOf action
  let s' := stepSwingUp .rk4 s force
  let terminated : Prop := |s'.theta| < theta_threshold_radians / 4
  let off_track : Prop := |s'.x| > x_threshold
  let obs : Obs := ⟨s'.x, s'.x_dot, Real.cos s'.theta, Real.sin s'.theta, s'.theta_dot⟩
  if ¬ terminated then
    if off_track then
      ⟨obs, -1000, terminated, off_track, s', sb, False⟩
    else
      ⟨obs, 1000, terminated, off_track, s', sb, False⟩
  else
    match sb with
    | none => ⟨obs, 100, terminated, off_track, s', some 0, False⟩
    | some k => ⟨obs, 1000, terminated, off_track, s', some (k + 1), k = 0⟩

/-- Everything a `reset` call produces or mutates. -/
structure ResetResult where
  obs : Obs
  state : State
  steps_beyond_terminated : Option ℕ

/-- Default lower reset bound (line 387). -/
noncomputable def default_reset_low : ℝ := -0.08

/-- Default upper reset bound (line 387). -/
noncomputable def default_reset_high : ℝ := 0.08

/-- The state built by `reset` (lines 389-391) from the four uniform
draws `u0 u1 u2 u3`: `uniform(low, high, size=(4,)) - [0, 0, pi, 0]`. -/
noncomputable def resetState (u0 u1 u2 u3 : ℝ) : State :=
  ⟨u0, u1, u2 - Real.pi, u3⟩

/-- Method `reset` (lines 376-408), with the library sampler
`np_random.uniform(low, high, size=(4,))` abstracted as the four draw
parameters `u0 u1 u2 u3`: stores the perturbed-hanging state, clears
`steps_beyond_terminated` (line 398), and returns the observation
`(sin theta, cos theta, theta_dot, x, x_dot)` (line 402). -/
noncomputable def reset (u0 u1 u2 u3 : ℝ) : ResetResult :=
  let s := resetState u0 u1 u2 u3
  ⟨⟨Real.sin s.theta, Real.cos s.theta, s.theta_dot, s.x, s.x_dot⟩, s, none⟩

/-- Method `step` including the state-initialization guard: the stored state is
`none` before the first `reset`, and `stepSwingUp` opens with
`assert self.state is not None, "Call reset before using step method."`
(line 249), raised before any physics is computed. -/
noncomputable def stepChecked (st : Option State) (sb : Option ℕ) (action : ℝ) :
    Except String StepResult :=
  match st with
  | none => .error ("Call reset before using step method.")
  | some s => .ok (step s sb action)

/-- Modelled from the spec: the two-argument arctangent `atan2(y, x)`
named by the spec's re-wrap sentence (the source itself calls the
one-argument `math.atan`); standard principal-value definition with
range `(-pi, pi]`. -/
noncomputable def atan2 (y x : ℝ) : ℝ :=
  if 0 < x then Real.arctan (y / x)
  else if x < 0 ∧ 0 ≤ y then Real.arctan (y / x) + Real.pi
  else if x < 0 ∧ y < 0 then Real.arctan (y / x) - Real.pi
  else if x = 0 ∧ 0 < y then Real.pi / 2
  else if x = 0 ∧ y < 0 then -(Real.pi / 2)
  else 0

/-- Episode configurations reachable from `c` by zero or more `step`
calls (no intervening `reset`): a configuration is the stored state
paired with the stored `steps_beyond_terminated` counter. -/
inductive Reachable : State × Option ℕ → State × Option ℕ → Prop
  | refl (c : State × Option ℕ) : Reachable c c
  | tail (c c' : State × Option ℕ) (a : ℝ) : Reachable c c' →
      Reachable c ((step c'.1 c'.2 a).state, (step c'.1 c'.2 a).steps_beyond_terminated)

/-!  Helper lemmas. -/

/-- Since `RHS` ignores its `y` argument, all four RK4 stages of
`stepSwingUp` coincide and the weighted combination collapses to a
single explicit-Euler update. -/
lemma stepSwingUp_rk4_eq_euler_update (s : State) (F : ℝ) :
    stepSwingUp .rk4 s F = vadd s (vsmul tau (deriv_at s F)) := by
  show vadd s (vsmul (tau / 6)
      (vadd (vadd (vadd (deriv_at s F) (vsmul 2 (deriv_at s F)))
        (vsmul 2 (deriv_at s F))) (deriv_at s F))) = _
  obtain ⟨a, b, c, d⟩ := deriv_at s F
  simp only [vadd, vsmul, State.mk.injEq]
  refine ⟨by ring, by ring, by ring, by ring⟩

/-- The same collapse for `stepPhysics`. -/
lemma stepPhysics_rk4_eq_euler_update (s : State) (F : ℝ) :
    stepPhysics .rk4 s F = vadd s (vsmul tau (deriv_at s F)) := by
  show vadd s (vsmul (tau / 6)
      (vadd (vadd (vadd (deriv_at s F) (vsmul 2 (deriv_at s F)))
        (vsmul 2 (deriv_at s F))) (deriv_at s F))) = _
  obtain ⟨a, b, c, d⟩ := deriv_at s F
  simp only [vadd, vsmul, State.mk.injEq]
  refine ⟨by ring, by ring, by ring, by ring⟩

/-- Cart position after one `"RK4"` swing-up step. -/
lemma post_x (s : State) (F : ℝ) :
    (stepSwingUp .rk4 s F).x = s.x + tau * s.x_dot := by
  rw [stepSwingUp_rk4_eq_euler_update]; rfl

/-- Cart velocity after one `"RK4"` swing-up step. -/
lemma post_x_dot (s : State) (F : ℝ) :
    (stepSwingUp .rk4 s F).x_dot =
      s.x_dot + tau * xaccOf s.x_dot s.theta s.theta_dot F := by
  rw [stepSwingUp_rk4_eq_euler_update]; rfl

/-- Pole angle after one `"RK4"` swing-up step. -/
lemma post_theta (s : State) (F : ℝ) :
    (stepSwingUp .rk4 s F).theta = s.theta + tau * s.theta_dot := by
  rw [stepSwingUp_rk4_eq_euler_update]; rfl

/-- Pole angular velocity after one `"RK4"` swing-up step. -/
lemma post_theta_dot (s : State) (F : ℝ) :
    (stepSwingUp .rk4 s F).theta_dot =
      s.theta_dot + tau * thetaaccOf s.x_dot s.theta s.theta_dot F := by
  rw [stepSwingUp_rk4_eq_euler_update]; rfl

/-- A zero action clamps and scales to zero force. -/
lemma forceOf_zero : forceOf 0 = 0 := by
  rw [forceOf, clip, max_action, force_mag]
  rw [show (1.0 : ℝ) * 0 = 0 by ring]
  rw [max_eq_left (by norm_num), min_eq_left (by norm_num)]
  ring

/-- The `terminated` flag returned by `step` is the upright test on the
post-integration state. -/
lemma step_terminated_eq (s : State) (sb : Option ℕ) (a : ℝ) :
    (step s sb a).terminated =
      (|(stepSwingUp .rk4 s (forceOf a)).theta| < theta_threshold_radians / 4) := by
  by_cases hT : |(stepSwingUp .rk4 s (forceOf a)).theta| < theta_threshold_radians / 4 <;>
    by_cases hO : |(stepSwingUp .rk4 s (forceOf a)).x| > x_threshold <;>
      cases sb <;> simp [step, hT, hO]

/-- The `off_track` flag returned by `step` is the rail-bound test on the
post-integration state. -/
lemma step_off_track_eq (s : State) (sb : Option ℕ) (a : ℝ) :
    (step s sb a).off_track =
      (|(stepSwingUp .rk4 s (forceOf a)).x| > x_threshold) := by
  by_cases hT : |(stepSwingUp .rk4 s (forceOf a)).theta| < theta_threshold_radians / 4 <;>
    by_cases hO : |(stepSwingUp .rk4 s (forceOf a)).x| > x_threshold <;>
      cases sb <;> simp [step, hT, hO]

/-- The state stored by `step` is the `"RK4"` swing-up update of the old
state under the clamped, scaled force. -/
lemma step_state_eq (s : State) (sb : Option ℕ) (a : ℝ) :
    (step s sb a).state = stepSwingUp .rk4 s (forceOf a) := by
  by_cases hT : |(stepSwingUp .rk4 s (forceOf a)).theta| < theta_threshold_radians / 4 <;>
    by_cases hO : |(stepSwingUp .rk4 s (forceOf a)).x| > x_threshold <;>
      cases sb <;> simp [step, hT, hO]

open Classical in
/-- Reward branch structure of `step` (lines 329-349). -/
lemma step_reward_eq (s : State) (sb : Option ℕ) (a : ℝ) :
    (step s sb a).reward =
      if |(stepSwingUp .rk4 s (forceOf a)).theta| < theta_threshold_radians / 4 then
        (match sb with | none => (100 : ℝ) | some _ => 1000)
      else if |(stepSwingUp .rk4 s (forceOf a)).x| > x_threshold then -1000 else 1000 := by
  by_cases hT : |(stepSwingUp .rk4 s (forceOf a)).theta| < theta_threshold_radians / 4 <;>
    by_cases hO : |(stepSwingUp .rk4 s (forceOf a)).x| > x_threshold <;>
      cases sb <;> simp [step, hT, hO]

open Classical in
/-- Counter update structure of `step` (lines 335-348). -/
lemma step_sb_eq (s : State) (sb : Option ℕ) (a : ℝ) :
    (step s sb a).steps_beyond_terminated =
      if |(stepSwingUp .rk4 s (forceOf a)).theta| < theta_threshold_radians / 4 then
        (match sb with | none => some 0 | some k => some (k + 1))
      else sb := by
  by_cases hT : |(stepSwingUp .rk4 s (forceOf a)).theta| < theta_threshold_radians / 4 <;>
    by_cases hO : |(stepSwingUp .rk4 s (forceOf a)).x| > x_threshold <;>
      cases sb <;> simp [step, hT, hO]

/-- The diagnostic warning fires exactly when the step is again terminal
and the post-terminal counter sits at 0 (lines 340-347). -/
lemma step_warned_iff (s : State) (sb : Option ℕ) (a : ℝ) :
    (step s sb a).warned ↔
      ((|(stepSwingUp .rk4 s (forceOf a)).theta| < theta_threshold_radians / 4) ∧
        sb = some 0) := by
  by_cases hT : |(stepSwingUp .rk4 s (forceOf a)).theta| < theta_threshold_radians / 4 <;>
    by_cases hO : |(stepSwingUp .rk4 s (forceOf a)).x| > x_threshold <;>
      cases sb <;> simp [step, hT, hO]

/-- Lower bound on the cart acceleration of the counterexample
trajectory's first step (state `(1, 0, 0, 4)`, zero force): with
`sin 0 = 0` and `cos 0 = 1` the value is an explicit rational, about
`-0.0193`. -/
lemma xacc_traj_bound : xaccOf 0 0 4 0 > -1 := by
  simp only [xaccOf, Real.sin_zero, Real.cos_zero]
  norm_num [dconst, gravity, masscart, masspole, length, r_mp, Jm, Kg, Rm, Kt, Km, Beq, Bp]

/-- Lower bound on the pole acceleration of the counterexample
trajectory's first step: an explicit rational, about `-0.331`. -/
lemma thetaacc_traj_bound : thetaaccOf 0 0 4 0 > -100 := by
  simp only [thetaaccOf, Real.sin_zero, Real.cos_zero]
  norm_num [dconst, gravity, masscart, masspole, length, r_mp, Jm, Kg, Rm, Kt, Km, Beq, Bp]

/-- First step of the counterexample trajectory: from stored state
`(x, x_dot, theta, theta_dot) = (1, 0, 0, 4)` with action `0`, the
post-step angle is `0 + tau * 4 = 0.04`, inside the upright window
`(-0.05, 0.05)`, so this step is terminal. -/
lemma traj1_terminated :
    |(stepSwingUp .rk4 (⟨1, 0, 0, 4⟩ : State) (forceOf 0)).theta| <
      theta_threshold_radians / 4 := by
  have hθ : (stepSwingUp .rk4 (⟨1, 0, 0, 4⟩ : State) (forceOf 0)).theta = 1 / 25 := by
    rw [post_theta]; norm_num [tau, fps]
  rw [hθ, theta_threshold_radians, abs_of_pos (by norm_num : (0 : ℝ) < 1 / 25)]
  norm_num

/-- Second step of the counterexample trajectory: the angle advances to
`0.04 + tau * (4 + tau * thetaacc)` which exceeds `0.05` because the
pole acceleration is bounded below, so the follow-up step is NOT
terminal. -/
lemma traj2_not_terminated :
    ¬ |(stepSwingUp .rk4 (stepSwingUp .rk4 (⟨1, 0, 0, 4⟩ : State) (forceOf 0))
        (forceOf 0)).theta| < theta_threshold_radians / 4 := by
  have hθ : (stepSwingUp .rk4 (stepSwingUp .rk4 (⟨1, 0, 0, 4⟩ : State) (forceOf 0))
      (forceOf 0)).theta =
      1 / 25 + (1 / 100) * (4 + (1 / 100) * thetaaccOf 0 0 4 0) := by
    rw [post_theta, post_theta, post_theta_dot, forceOf_zero]
    norm_num [tau, fps]
  have hT := thetaacc_traj_bound
  rw [hθ, theta_threshold_radians]
  intro h
  rw [abs_lt] at h
  have h2 := h.2
  norm_num at h2
  linarith

/-- Second step of the counterexample trajectory: the cart stays near
`x = 1`, beyond the rail bound `0.25`, so the follow-up step is
off-track. -/
lemma traj2_off_track :
    |(stepSwingUp .rk4 (stepSwingUp .rk4 (⟨1, 0, 0, 4⟩ : State) (forceOf 0))
        (forceOf 0)).x| > x_threshold := by
  have hx : (stepSwingUp .rk4 (stepSwingUp .rk4 (⟨1, 0, 0, 4⟩ : State) (forceOf 0))
      (forceOf 0)).x = 1 + (1 / 100) * ((1 / 100) * xaccOf 0 0 4 0) := by
    rw [post_x, post_x, post_x_dot, forceOf_zero]
    norm_num [tau, fps]
  have hX := xacc_traj_bound
  rw [hx, x_threshold, abs_of_pos (by linarith)]
  linarith

/-- From the all-zero stored state with zero action, the post-step angle
is `0`, so the step is terminal. -/
lemma traj0_terminated :
    |(stepSwingUp .rk4 (⟨0, 0, 0, 0⟩ : State) (forceOf 0)).theta| <
      theta_threshold_radians / 4 := by
  have hθ : (stepSwingUp .rk4 (⟨0, 0, 0, 0⟩ : State) (forceOf 0)).theta = 0 := by
    rw [post_theta]; norm_num
  rw [hθ, theta_threshold_radians]
  norm_num

/-- Cart acceleration at the all-zero state under force `10` is strictly
positive (it is the pure force-drive term). -/
lemma xacc_force_pos : xaccOf 0 0 0 10 > 0 := by
  simp only [xaccOf, Real.sin_zero, Real.cos_zero]
  norm_num [dconst, gravity, masscart, masspole, length, r_mp, Jm, Kg, Rm, Kt, Km, Beq, Bp]

/-- A `step` call keeps the post-terminal counter at `1` or above once it
is there (the counter either increments or is left unchanged). -/
lemma step_preserves_sbPos (s : State) (sb : Option ℕ) (a : ℝ)
    (h : ∃ k, sb = some k ∧ 1 ≤ k) :
    ∃ k', (step s sb a).steps_beyond_terminated = some k' ∧ 1 ≤ k' := by
  obtain ⟨k, rfl, hk⟩ := h
  rw [step_sb_eq]
  by_cases hT : |(stepSwingUp .rk4 s (forceOf a)).theta| < theta_threshold_radians / 4
  · rw [if_pos hT]; exact ⟨k + 1, rfl, by omega⟩
  · rw [if_neg hT]; exact ⟨k, rfl, hk⟩

/-- The counter staying at `1` or above is invariant along every
reachable continuation of the episode. -/
lemma reachable_preserves_sbPos (c c' : State × Option ℕ)
    (h : Reachable c c') (h0 : ∃ k, c.2 = some k ∧ 1 ≤ k) :
    ∃ k, c'.2 = some k ∧ 1 ≤ k := by
  induction h with
  | refl => exact h0
  | tail c'' a hr ih => exact step_preserves_sbPos c''.1 c''.2 a ih

/-- No warning can fire while the counter is at `1` or above. -/
lemma sbPos_not_warned (s : State) (sb : Option ℕ) (a : ℝ)
    (h : ∃ k, sb = some k ∧ 1 ≤ k) : ¬ (step s sb a).warned := by
  obtain ⟨k, rfl, hk⟩ := h
  rw [step_warned_iff]
  rintro ⟨-, hsb⟩
  simp only [Option.some.injEq] at hsb
  omega

/-- Right after a warning call the counter is `1`. -/
lemma warned_post_sbPos (s : State) (sb : Option ℕ) (a : ℝ)
    (h : (step s sb a).warned) :
    ∃ k, (step s sb a).steps_beyond_terminated = some k ∧ 1 ≤ k := by
  obtain ⟨hT, hsb⟩ := (step_warned_iff s sb a).mp h
  subst hsb
  rw [step_sb_eq, if_pos hT]
  exact ⟨1, rfl, le_refl 1⟩

/-!  Claim theorems. -/

/-- C1: the claim states that one `"RK4"` step advances the state by one
classical 4th-order Runge-Kutta step with each stage `ki` being the
derivative evaluated at the stated perturbed state.  The code violates
this: `RHS` reads the stored state and ignores its argument, so already
the second stage is not the derivative at `s + tau/2*k1`.  This theorem
evaluates the code at the failing input `s = (0,0,0,0)`, `F = 10`: the
code's stage-2 value differs from the derivative at the perturbed
state. -/
theorem C1_rk4_stage_mismatch :
    RHS (⟨0, 0, 0, 0⟩ : State)
        (vadd (⟨0, 0, 0, 0⟩ : State)
          (vsmul (tau / 2) (RHS (⟨0, 0, 0, 0⟩ : State) (⟨0, 0, 0, 0⟩ : State) 10))) 10 ≠
      deriv_at
        (vadd (⟨0, 0, 0, 0⟩ : State)
          (vsmul (tau / 2) (RHS (⟨0, 0, 0, 0⟩ : State) (⟨0, 0, 0, 0⟩ : State) 10))) 10 := by
  intro h
  have hx := congrArg State.x h
  simp only [RHS, deriv_at, vadd, vsmul] at hx
  have hX := xacc_force_pos
  rw [tau, fps] at hx
  norm_num at hx
  linarith

/-- C2: the claim states that `RHS(y, force)` is a pure function of its
arguments returning the derivative evaluated at `y`.  In the code `RHS`
unpacks `self.state` (and reassigns `y = self.state`), so it is constant
in `y`; at the failing input (stored state all-zero, `y = (0,1,0,0)`)
its first returned component is the stored state's `x_dot = 0`, not
`y`'s `x_dot = 1`. -/
theorem C2_RHS_ignores_argument :
    (∀ (st y y' : State) (F : ℝ), RHS st y F = RHS st y' F) ∧
    RHS (⟨0, 0, 0, 0⟩ : State) (⟨0, 1, 0, 0⟩ : State) 0 ≠
      deriv_at (⟨0, 1, 0, 0⟩ : State) 0 := by
  refine ⟨fun st y y' F => rfl, fun h => ?_⟩
  have hx := congrArg State.x h
  simp only [RHS, deriv_at] at hx
  norm_num at hx

/-- C3: because all four Runge-Kutta stage evaluations read the stored
state and therefore coincide, one `"RK4"` step of `stepSwingUp` (and of
`stepPhysics`) equals the single explicit-Euler update
`s + tau * RHS(s, F)` over exact real arithmetic. -/
theorem C3_rk4_is_single_euler_update (s : State) (F : ℝ) :
    stepSwingUp .rk4 s F = vadd s (vsmul tau (RHS s s F)) ∧
    stepPhysics .rk4 s F = vadd s (vsmul tau (RHS s s F)) :=
  ⟨stepSwingUp_rk4_eq_euler_update s F, stepPhysics_rk4_eq_euler_update s F⟩

/-- C4 counterexample: the claim says theta is re-wrapped through
`atan2(sin theta, cos theta)`; the code uses the one-argument
`atan(sin theta / cos theta)` (line 256).  At `theta = pi` the code's
re-wrap yields `0` while `atan2(sin pi, cos pi) = pi`, so the two
disagree. -/
theorem C4_counterexample :
    swingUpRewrap Real.pi = 0 ∧
    atan2 (Real.sin Real.pi) (Real.cos Real.pi) = Real.pi ∧
    swingUpRewrap Real.pi ≠ atan2 (Real.sin Real.pi) (Real.cos Real.pi) := by
  have h1 : swingUpRewrap Real.pi = 0 := by
    rw [swingUpRewrap, Real.sin_pi, Real.cos_pi]
    norm_num [Real.arctan_zero]
  have h2 : atan2 (Real.sin Real.pi) (Real.cos Real.pi) = Real.pi := by
    rw [Real.sin_pi, Real.cos_pi, atan2]
    rw [if_neg (by norm_num), if_pos (by norm_num : (-1 : ℝ) < 0 ∧ (0 : ℝ) ≤ 0)]
    norm_num [Real.arctan_zero]
  refine ⟨h1, h2, ?_⟩
  rw [h1, h2]
  exact fun h => Real.pi_ne_zero h.symm

/-- C4 amended: the swing-up stepper re-wraps theta through
`arctan(sin theta / cos theta)`, whose value always lies in
`(-pi/2, pi/2)`; the re-wrapped angle feeds only the Euler-family
position updates (the derivative terms use the original angle), and in
the default `"RK4"` mode the re-wrap has no effect on the returned
state, which coincides with `stepPhysics`. -/
theorem C4_amended (s : State) (F : ℝ) :
    (stepSwingUp .euler s F).theta = swingUpRewrap s.theta + tau * s.theta_dot ∧
    stepSwingUp .rk4 s F = stepPhysics .rk4 s F ∧
    -(Real.pi / 2) < swingUpRewrap s.theta ∧ swingUpRewrap s.theta < Real.pi / 2 := by
  refine ⟨rfl, ?_, Real.neg_pi_div_two_lt_arctan _, Real.arctan_lt_pi_div_two _⟩
  rw [stepSwingUp_rk4_eq_euler_update, stepPhysics_rk4_eq_euler_update]

open Classical in
/-- C5: every `step` call classifies `terminated` and `off_track` from
the post-integration state with the stated thresholds, and assigns
reward `+1000` (not terminated, on track), `-1000` (not terminated, off
track), `+100` with the counter initialized to `0` (first terminal
step), or `+1000` with the counter incremented (terminal, counter
already set). -/
theorem C5_step_classification (s : State) (sb : Option ℕ) (a : ℝ) :
    ((step s sb a).terminated ↔
      |(stepSwingUp .rk4 s (forceOf a)).theta| < theta_threshold_radians / 4) ∧
    ((step s sb a).off_track ↔ |(stepSwingUp .rk4 s (forceOf a)).x| > x_threshold) ∧
    (step s sb a).state = stepSwingUp .rk4 s (forceOf a) ∧
    (step s sb a).reward =
      (if |(stepSwingUp .rk4 s (forceOf a)).theta| < theta_threshold_radians / 4 then
        (match sb with | none => (100 : ℝ) | some _ => 1000)
      else if |(stepSwingUp .rk4 s (forceOf a)).x| > x_threshold then -1000 else 1000) ∧
    (step s sb a).steps_beyond_terminated =
      (if |(stepSwingUp .rk4 s (forceOf a)).theta| < theta_threshold_radians / 4 then
        (match sb with | none => some 0 | some k => some (k + 1))
      else sb) := by
  refine ⟨?_, ?_, step_state_eq s sb a, step_reward_eq s sb a, step_sb_eq s sb a⟩
  · rw [step_terminated_eq]
  · rw [step_off_track_eq]

/-- C6 counterexample: from stored state `(1, 0, 0, 4)` with zero
actions, the first `step` is terminal (reward `100`), yet the very next
`step` without a reset returns reward `-1000` (the pole leaves the
upright window while the cart is off track), not `+1000` as the claim
requires. -/
theorem C6_counterexample :
    (step (⟨1, 0, 0, 4⟩ : State) none 0).terminated ∧
    (step (⟨1, 0, 0, 4⟩ : State) none 0).reward = 100 ∧
    (step (step (⟨1, 0, 0, 4⟩ : State) none 0).state
      (step (⟨1, 0, 0, 4⟩ : State) none 0).steps_beyond_terminated 0).reward = -1000 := by
  refine ⟨?_, ?_, ?_⟩
  · rw [step_terminated_eq]; exact traj1_terminated
  · rw [step_reward_eq, if_pos traj1_terminated]
  · rw [step_state_eq, step_sb_eq, if_pos traj1_terminated]
    rw [step_reward_eq, if_neg traj2_not_terminated, if_pos traj2_off_track]

/-- C6 amended: once terminated has been reported and `reset` is not
called, every following `step` call that itself reports
`terminated = true` returns reward exactly `+1000`; the exact first
terminal step (counter still unset) returns `+100`.  (A post-terminal
step whose own terminal test fails follows the non-terminal reward rule
instead, as the counterexample shows.) -/
theorem C6_amended :
    (∀ (s : State) (a : ℝ), (step s none a).terminated → (step s none a).reward = 100) ∧
    (∀ (s : State) (k : ℕ) (a : ℝ),
      (step s (some k) a).terminated → (step s (some k) a).reward = 1000) := by
  constructor
  · intro s a h
    rw [step_terminated_eq] at h
    rw [step_reward_eq, if_pos h]
  · intro s k a h
    rw [step_terminated_eq] at h
    rw [step_reward_eq, if_pos h]

/-- C6 amended, witnessed at a concrete post-terminal terminal step. -/
theorem C6_amended_witness :
    (step (⟨0, 0, 0, 0⟩ : State) (some 0) 0).reward = 1000 :=
  C6_amended.2 ⟨0, 0, 0, 0⟩ 0 0 (by rw [step_terminated_eq]; exact traj0_terminated)

/-- C7 counterexample: on the same trajectory as the C6 counterexample,
the first post-terminal call (which is not terminal again) emits NO
warning, contradicting the claim that the one-time diagnostic is emitted
on the first post-terminal call. -/
theorem C7_counterexample :
    (step (⟨1, 0, 0, 4⟩ : State) none 0).terminated ∧
    (step (⟨1, 0, 0, 4⟩ : State) none 0).steps_beyond_terminated = some 0 ∧
    ¬ (step (step (⟨1, 0, 0, 4⟩ : State) none 0).state
      (step (⟨1, 0, 0, 4⟩ : State) none 0).steps_beyond_terminated 0).warned := by
  refine ⟨?_, ?_, ?_⟩
  · rw [step_terminated_eq]; exact traj1_terminated
  · rw [step_sb_eq, if_pos traj1_terminated]
  · rw [step_state_eq, step_sb_eq, if_pos traj1_terminated, step_warned_iff]
    rintro ⟨h, -⟩
    exact traj2_not_terminated h

/-- C7 amended: post-terminal continuation is not an error (the checked
step succeeds on every initialized state); the diagnostic fires exactly
on a call that is again terminal while the counter sits at `0` (the
first call processed in the post-terminal branch), and once it has
fired, no call reachable without a `reset` ever fires it again. -/
theorem C7_amended :
    (∀ (s : State) (sb : Option ℕ) (a : ℝ),
      stepChecked (some s) sb a = Except.ok (step s sb a)) ∧
    (∀ (s : State) (sb : Option ℕ) (a : ℝ),
      ((step s sb a).warned ↔ ((step s sb a).terminated ∧ sb = some 0))) ∧
    (∀ (s : State) (sb : Option ℕ) (a : ℝ), (step s sb a).warned →
      ∀ c', Reachable ((step s sb a).state, (step s sb a).steps_beyond_terminated) c' →
        ∀ a', ¬ (step c'.1 c'.2 a').warned) := by
  refine ⟨fun s sb a => rfl, ?_, ?_⟩
  · intro s sb a
    rw [step_terminated_eq]
    exact step_warned_iff s sb a
  · intro s sb a h c' hr a'
    exact sbPos_not_warned c'.1 c'.2 a'
      (reachable_preserves_sbPos _ c' hr (warned_post_sbPos s sb a h))

/-- C7 amended, witnessed: a concrete warning call (terminal step with
counter `0`) is followed, zero steps later, by a call that does not
warn. -/
theorem C7_amended_witness :
    ¬ (step (step (⟨0, 0, 0, 0⟩ : State) (some 0) 0).state
        (step (⟨0, 0, 0, 0⟩ : State) (some 0) 0).steps_beyond_terminated 0).warned :=
  C7_amended.2.2 ⟨0, 0, 0, 0⟩ (some 0) 0
    ((step_warned_iff _ _ _).mpr ⟨traj0_terminated, rfl⟩)
    ((step (⟨0, 0, 0, 0⟩ : State) (some 0) 0).state,
      (step (⟨0, 0, 0, 0⟩ : State) (some 0) 0).steps_beyond_terminated)
    (Reachable.refl _) 0

/-- C8: with the library sampler abstracted as the four draws
`u0 u1 u2 u3` from `[low, high]`, `reset` stores exactly
`(u0, u1, u2 - pi, u3)` (pi subtracted from the angular component only),
clears the post-terminal counter, and each stored component lies in the
drawn interval shifted by `-pi` for the angle alone. -/
theorem C8_reset_structure (u0 u1 u2 u3 low high : ℝ)
    (h0 : low ≤ u0 ∧ u0 ≤ high) (h1 : low ≤ u1 ∧ u1 ≤ high)
    (h2 : low ≤ u2 ∧ u2 ≤ high) (h3 : low ≤ u3 ∧ u3 ≤ high) :
    (reset u0 u1 u2 u3).state = (⟨u0, u1, u2 - Real.pi, u3⟩ : State) ∧
    (reset u0 u1 u2 u3).steps_beyond_terminated = none ∧
    low ≤ (reset u0 u1 u2 u3).state.x ∧ (reset u0 u1 u2 u3).state.x ≤ high ∧
    low ≤ (reset u0 u1 u2 u3).state.x_dot ∧ (reset u0 u1 u2 u3).state.x_dot ≤ high ∧
    low - Real.pi ≤ (reset u0 u1 u2 u3).state.theta ∧
    (reset u0 u1 u2 u3).state.theta ≤ high - Real.pi ∧
    low ≤ (reset u0 u1 u2 u3).state.theta_dot ∧
    (reset u0 u1 u2 u3).state.theta_dot ≤ high :=
  ⟨rfl, rfl, h0.1, h0.2, h1.1, h1.2,
    sub_le_sub_right h2.1 Real.pi, sub_le_sub_right h2.2 Real.pi, h3.1, h3.2⟩

/-- C8, witnessed at the all-zero draw with the default bounds
`[-0.08, 0.08]`. -/
theorem C8_reset_structure_witness :
    (reset 0 0 0 0).state = (⟨0, 0, 0 - Real.pi, 0⟩ : State) ∧
    (reset 0 0 0 0).steps_beyond_terminated = none ∧
    (-0.08 : ℝ) ≤ (reset 0 0 0 0).state.x ∧ (reset 0 0 0 0).state.x ≤ 0.08 ∧
    (-0.08 : ℝ) ≤ (reset 0 0 0 0).state.x_dot ∧ (reset 0 0 0 0).state.x_dot ≤ 0.08 ∧
    (-0.08 : ℝ) - Real.pi ≤ (reset 0 0 0 0).state.theta ∧
    (reset 0 0 0 0).state.theta ≤ (0.08 : ℝ) - Real.pi ∧
    (-0.08 : ℝ) ≤ (reset 0 0 0 0).state.theta_dot ∧
    (reset 0 0 0 0).state.theta_dot ≤ 0.08 :=
  C8_reset_structure 0 0 0 0 (-0.08) 0.08 ⟨by norm_num, by norm_num⟩
    ⟨by norm_num, by norm_num⟩ ⟨by norm_num, by norm_num⟩ ⟨by norm_num, by norm_num⟩

/-- C9: the observation returned by `step` is exactly
`(x, x_dot, cos theta, sin theta, theta_dot)` of the post-step state,
while the observation returned by `reset` is exactly
`(sin theta, cos theta, theta_dot, x, x_dot)` of the freshly sampled
state — the two distinct orderings of the source. -/
theorem C9_observation_orderings (s : State) (sb : Option ℕ) (a u0 u1 u2 u3 : ℝ) :
    (step s sb a).obs = (⟨(step s sb a).state.x, (step s sb a).state.x_dot,
        Real.cos (step s sb a).state.theta, Real.sin (step s sb a).state.theta,
        (step s sb a).state.theta_dot⟩ : Obs) ∧
    (reset u0 u1 u2 u3).obs = (⟨Real.sin (reset u0 u1 u2 u3).state.theta,
        Real.cos (reset u0 u1 u2 u3).state.theta,
        (reset u0 u1 u2 u3).state.theta_dot, (reset u0 u1 u2 u3).state.x,
        (reset u0 u1 u2 u3).state.x_dot⟩ : Obs) := by
  constructor
  · by_cases hT : |(stepSwingUp .rk4 s (forceOf a)).theta| < theta_threshold_radians / 4 <;>
      by_cases hO : |(stepSwingUp .rk4 s (forceOf a)).x| > x_threshold <;>
        cases sb <;> simp [step, hT, hO]
  · rfl

/-- C10: calling `step` before any `reset` (stored state still `none`)
takes the uninitialized-state error path with the source's assertion
message and never returns a result. -/
theorem C10_step_before_reset (sb : Option ℕ) (a : ℝ) :
    stepChecked none sb a = Except.error ("Call reset before using step method.") ∧
    ∀ r : StepResult, stepChecked none sb a ≠ Except.ok r :=
  ⟨rfl, fun r h => by simp [stepChecked] at h⟩

end CartPoleSwingUp
